import Mathlib

/-!
Shallow embedding of the query-builder core of this repository: the
SQLGenerator class (generateSQL and validateSQL), the caller-side
guards of the execute and export HTTP entry points, and the two
configuration-model reducers handleTablesAdd and handleColumnsAdd.
JavaScript string primitives used by the source (trim, toLowerCase,
startsWith, includes, Number coercion) are modelled on character lists.
-/

namespace QueryBuilder

/-! ## JavaScript string primitives -/

/-- Model of the JavaScript String.prototype.trim on the ASCII inputs
this development uses: strip leading and trailing whitespace. -/
def strTrim (s : String) : String :=
  ⟨(s.data.dropWhile Char.isWhitespace).reverse.dropWhile Char.isWhitespace |>.reverse⟩

/-- Model of JavaScript String.prototype.toLowerCase on ASCII inputs. -/
def strLower (s : String) : String :=
  ⟨s.data.map Char.toLower⟩

/-- Model of JavaScript String.prototype.startsWith. -/
def strStarts (s pat : String) : Bool :=
  pat.data.isPrefixOf s.data

/-- Helper for substring containment on character lists. -/
def listHasSub (pat : List Char) : List Char → Bool
  | [] => pat.isEmpty
  | c :: rest => pat.isPrefixOf (c :: rest) || listHasSub pat rest

/-- Model of JavaScript String.prototype.includes (substring containment). -/
def strContainsSub (s pat : String) : Bool :=
  listHasSub pat.data s.data

/-- Count occurrences of a character in a string; models counting the
matches of a single-character global regular expression. -/
def charCount (s : String) (c : Char) : Nat :=
  s.data.count c

/-! Model of the JavaScript Number("...") coercion, as far as deciding
whether the result is NaN: an all-whitespace string coerces to 0, and
otherwise the trimmed text must be a signed decimal literal (with
optional fraction and exponent), a signed Infinity, or an unsigned
radix literal (0x, 0o, 0b). -/

/-- Drop one leading sign character if present. -/
def stripSign : List Char → List Char
  | c :: r => if c = '+' ∨ c = '-' then r else c :: r
  | [] => []

/-- Accept an optional exponent part consuming the whole remainder. -/
def expPart : List Char → Bool
  | [] => true
  | c :: r =>
    (c = 'e' ∨ c = 'E') && (let r' := stripSign r; !r'.isEmpty && r'.all Char.isDigit)

/-- Accept an unsigned decimal mantissa with optional fraction and exponent. -/
def decNum (l : List Char) : Bool :=
  let p := l.span Char.isDigit
  match p.2 with
  | '.' :: r2 =>
    let q := r2.span Char.isDigit
    (!p.1.isEmpty || !q.1.isEmpty) && expPart q.2
  | _ => !p.1.isEmpty && expPart p.2

/-- Accept an unsigned hexadecimal, octal or binary radix literal. -/
def radixNum : List Char → Bool
  | '0' :: x :: rest =>
    ((x = 'x' ∨ x = 'X') && !rest.isEmpty && rest.all (fun c => c.isDigit ∨ ('a' ≤ c ∧ c ≤ 'f') ∨ ('A' ≤ c ∧ c ≤ 'F'))) ||
    ((x = 'o' ∨ x = 'O') && !rest.isEmpty && rest.all (fun c => '0' ≤ c ∧ c ≤ '7')) ||
    ((x = 'b' ∨ x = 'B') && !rest.isEmpty && rest.all (fun c => c = '0' ∨ c = '1'))
  | _ => false

/-- Model of isNaN(Number(s)) in JavaScript. -/
def jsNumberIsNaN (s : String) : Bool :=
  let t := (strTrim s).data
  if t.isEmpty then false
  else !(radixNum t || (let b := stripSign t; b = "Infinity".data || decNum b))

/-! ## Data model (client/src/types/query.ts) -/

/-- Logical connective between consecutive filter conditions. -/
inductive LogicalOp : Type
  | AND : LogicalOp
  | OR : LogicalOp
deriving DecidableEq, Repr

/-- Render a logical connective as its token. -/
def LogicalOp.render : LogicalOp → String
  | .AND => "AND"
  | .OR => "OR"

/-- Join type enumeration of the QueryJoin interface. -/
inductive JoinType : Type
  | INNER : JoinType
  | LEFT : JoinType
  | RIGHT : JoinType
  | OUTER : JoinType
deriving DecidableEq, Repr

/-- Render a join type as its token. -/
def JoinType.render : JoinType → String
  | .INNER => "INNER"
  | .LEFT => "LEFT"
  | .RIGHT => "RIGHT"
  | .OUTER => "OUTER"

/-- Sort direction of an orderBy entry. -/
inductive SortDir : Type
  | ASC : SortDir
  | DESC : SortDir
deriving DecidableEq, Repr

/-- Render a sort direction as its token. -/
def SortDir.render : SortDir → String
  | .ASC => "ASC"
  | .DESC => "DESC"

/-- SelectedColumn interface: a projected column; optional string fields
model the optional (possibly undefined) TypeScript fields. -/
structure SelectedColumn : Type where
  id : String
  tableName : String
  columnName : String
  aliasName : Option String
  function : Option String
  functionParams : Option (List String)
deriving DecidableEq, Repr

/-- QueryCondition interface: one WHERE predicate. -/
structure QueryCondition : Type where
  id : String
  column : String
  operator : String
  value : String
  logicalOperator : Option LogicalOp
deriving DecidableEq, Repr

/-- One entry of a join's additionalConditions array. -/
structure JoinAddCond : Type where
  id : String
  leftColumn : String
  rightColumn : String
deriving DecidableEq, Repr

/-- QueryJoin interface; the optional additionalConditions array is
modelled as a list, with undefined as the empty list (the source guards
on presence and non-emptiness before using it, which coincides). -/
structure QueryJoin : Type where
  id : String
  type : JoinType
  leftTable : String
  leftColumn : String
  rightTable : String
  rightColumn : String
  additionalConditions : List JoinAddCond
deriving DecidableEq, Repr

/-- One orderBy entry. -/
structure OrderBySpec : Type where
  column : String
  direction : SortDir
deriving DecidableEq, Repr

/-- QueryConfig interface: the root configuration aggregate. -/
structure QueryConfig : Type where
  selectedTables : List String
  selectedColumns : List SelectedColumn
  conditions : List QueryCondition
  joins : List QueryJoin
  groupBy : List String
  orderBy : List OrderBySpec
  limit : Option Int
  distinct : Bool
  logicalOperator : Option LogicalOp
deriving DecidableEq, Repr

/-! ## SQLGenerator.generateSQL (client/src/lib/sql-generator.ts) -/

/-- Function names wrapped by the plain FN(col) template in the switch
of the SELECT-clause column renderer. -/
def aggFunctions : List String :=
  ["SUM", "AVG", "MIN", "MAX", "UPPER", "LOWER", "LENGTH"]

/-- Render one selected column of the SELECT clause: qualified name,
then the optional function template, then the optional alias. -/
def renderColumn (col : SelectedColumn) : String :=
  let columnExpr := col.tableName ++ "." ++ col.columnName
  let columnExpr :=
    match col.function with
    | none => columnExpr
    | some f =>
      if f = "DATE_TRUNC" then "DATE_TRUNC('day', " ++ columnExpr ++ ")"
      else if f = "EXTRACT" then "EXTRACT(year FROM " ++ columnExpr ++ ")"
      else if f = "COUNT" then
        (if col.columnName = "*" then "COUNT(*)" else "COUNT(" ++ columnExpr ++ ")")
      else if f ∈ aggFunctions then f ++ "(" ++ columnExpr ++ ")"
      else columnExpr
  match col.aliasName with
  | none => columnExpr
  | some a => if a = "" then columnExpr else columnExpr ++ " AS " ++ a

/-- Render the SELECT clause: DISTINCT flag, wildcard when no column is
selected, otherwise the rendered columns joined by a comma and an
indented line break. -/
def selectClause (config : QueryConfig) : String :=
  let s := "SELECT"
  let s := if config.distinct then s ++ " DISTINCT" else s
  if config.selectedColumns.isEmpty then s ++ " *"
  else s ++ "\n  " ++ String.intercalate ",\n  " (config.selectedColumns.map renderColumn)

/-- Render one explicit join clause with its ON equalities. -/
def renderJoin (join : QueryJoin) : String :=
  let joinClause := join.type.render ++ " JOIN " ++ join.rightTable ++ " ON " ++
    join.leftTable ++ "." ++ join.leftColumn ++ " = " ++ join.rightTable ++ "." ++ join.rightColumn
  joinClause ++ String.join (join.additionalConditions.map (fun c =>
    " AND " ++ join.leftTable ++ "." ++ c.leftColumn ++ " = " ++ join.rightTable ++ "." ++ c.rightColumn))

/-- Value formatting of one WHERE condition, by operator: membership
operators wrap in parentheses unless the value already starts with one,
LIKE and ILIKE quote unless the value already starts with a quote,
nullability checks erase the value, and otherwise the value is quoted
unless it coerces to a number or already starts with a quote. -/
def condValue (condition : QueryCondition) : String :=
  let value := condition.value
  if condition.operator = "IN" ∨ condition.operator = "NOT IN" then
    if strStarts value "(" then value else "(" ++ value ++ ")"
  else if condition.operator = "LIKE" ∨ condition.operator = "ILIKE" then
    if strStarts value "'" then value else "'" ++ value ++ "'"
  else if condition.operator = "IS NULL" ∨ condition.operator = "IS NOT NULL" then ""
  else if jsNumberIsNaN value && !(strStarts value "'") then "'" ++ value ++ "'"
  else value

/-- Render one WHERE condition at its position: optional logical
connective for conditions after the first, column and operator tokens,
then the formatted value when non-empty (JavaScript truthiness of the
value string). -/
def renderCondition (index : Nat) (condition : QueryCondition) : String :=
  let conditionStr :=
    match condition.logicalOperator with
    | some lop => if 0 < index then lop.render ++ " " else ""
    | none => ""
  let value := condValue condition
  let conditionStr := conditionStr ++ condition.column ++ " " ++ condition.operator
  if value = "" then conditionStr else conditionStr ++ " " ++ value

/-- Render the WHERE clause from a non-empty condition list. -/
def whereClause (conditions : List QueryCondition) : String :=
  "WHERE " ++ String.intercalate " " (conditions.enum.map (fun p => renderCondition p.1 p.2))

/-- Rendered ORDER BY entries: entries with an empty or blank column are
skipped, the rest render as column and direction. -/
def orderListOf (config : QueryConfig) : List String :=
  (config.orderBy.filter (fun o => !(o.column = "") && !(strTrim o.column = ""))).map
    (fun o => o.column ++ " " ++ o.direction.render)

/-- FROM-clause block of generateSQL: when a table is selected, push
the FROM clause for the first table, and when more than one table is
selected with no explicit join, push one CROSS JOIN clause per
remaining table, in order. -/
def fromStep (config : QueryConfig) (parts : List String) : List String :=
  match config.selectedTables with
  | [] => parts
  | t0 :: rest =>
    let parts := parts ++ ["FROM " ++ t0]
    if !rest.isEmpty && config.joins.isEmpty then
      parts ++ rest.map (fun t => "CROSS JOIN " ++ t)
    else parts

/-- WHERE-clause block of generateSQL: push the WHERE clause when at
least one condition exists. -/
def whereStep (config : QueryConfig) (parts : List String) : List String :=
  if config.conditions.isEmpty then parts
  else parts ++ [whereClause config.conditions]

/-- GROUP BY block of generateSQL. -/
def groupStep (config : QueryConfig) (parts : List String) : List String :=
  if config.groupBy.isEmpty then parts
  else parts ++ ["GROUP BY " ++ String.intercalate ", " config.groupBy]

/-- ORDER BY block of generateSQL: entries with blank columns are
filtered out first and the clause is pushed only when some entry
remains. -/
def orderStep (config : QueryConfig) (parts : List String) : List String :=
  if config.orderBy.isEmpty then parts
  else
    let orderList := orderListOf config
    if orderList.isEmpty then parts
    else parts ++ ["ORDER BY " ++ String.intercalate ", " orderList]

/-- LIMIT block of generateSQL: pushed only for a truthy positive limit. -/
def limitStep (config : QueryConfig) (parts : List String) : List String :=
  match config.limit with
  | some l => if 0 < l then parts ++ ["LIMIT " ++ toString l] else parts
  | none => parts

/-- Clause list built by generateSQL, in the order the source pushes
onto its parts array: SELECT; FROM plus implicit CROSS JOINs; explicit
joins; WHERE; GROUP BY; ORDER BY; LIMIT. -/
def generateParts (config : QueryConfig) : List String :=
  limitStep config (orderStep config (groupStep config (whereStep config
    (fromStep config [selectClause config] ++ config.joins.map renderJoin))))

/-- SQLGenerator.generateSQL: the clause list joined by newlines. -/
def generateSQL (config : QueryConfig) : String :=
  String.intercalate "\n" (generateParts config)

/-! ## SQLGenerator.validateSQL -/

/-- Result shape of validateSQL. -/
structure ValidationResult : Type where
  isValid : Bool
  errors : List String
deriving DecidableEq, Repr

/-- Denylist of the validator's keyword screen. -/
def dangerousKeywords : List String :=
  ["drop", "delete", "update", "insert", "alter", "create", "truncate"]

/-- SQLGenerator.validateSQL: accumulate an error for each failing rule
(leading select on the trimmed lower-cased text, substring from,
balanced parenthesis count on the raw text, denylist substring screen)
and report validity as emptiness of the error list. -/
def validateSQL (sql : String) : ValidationResult :=
  let normalizedSql := strLower (strTrim sql)
  let errors : List String := []
  let errors :=
    if !(strStarts normalizedSql "select") then errors ++ ["Query must start with SELECT"]
    else errors
  let errors :=
    if !(strContainsSub normalizedSql "from") then errors ++ ["Query must include FROM clause"]
    else errors
  let openParens := charCount sql '('
  let closeParens := charCount sql ')'
  let errors :=
    if openParens ≠ closeParens then errors ++ ["Unbalanced parentheses in query"]
    else errors
  let hasDangerousKeywords := dangerousKeywords.any (fun keyword => strContainsSub normalizedSql keyword)
  let errors :=
    if hasDangerousKeywords then errors ++ ["Query contains restricted keywords"]
    else errors
  { isValid := errors.isEmpty, errors := errors }

/-! ## Route-level guards (server routes, registerRoutes) -/

/-- Guard of the POST /api/query/execute route: reject exactly when the
trimmed lower-cased text starts with one of six destructive keywords. -/
def executeGateRejects (sql : String) : Bool :=
  let normalizedSql := strLower (strTrim sql)
  strStarts normalizedSql "drop" || strStarts normalizedSql "delete" ||
  strStarts normalizedSql "update" || strStarts normalizedSql "insert" ||
  strStarts normalizedSql "alter" || strStarts normalizedSql "create"

/-- Guard of the POST /api/query/export route: reject exactly when the
trimmed lower-cased text does not start with select. -/
def exportGateRejects (sql : String) : Bool :=
  !(strStarts (strLower (strTrim sql)) "select")

/-! ## Configuration-model reducers (query-builder page) -/

/-- Shape of one entry passed to handleColumnsAdd. -/
structure ColumnPick : Type where
  tableName : String
  columnName : String
deriving DecidableEq, Repr

/-- First-occurrence deduplication with an accumulator of already seen
entries; models the insertion-order semantics of a JavaScript Set. -/
def dedupFirstAux (seen : List String) : List String → List String
  | [] => []
  | a :: rest =>
    if a ∈ seen then dedupFirstAux seen rest
    else a :: dedupFirstAux (a :: seen) rest

/-- First-occurrence deduplication, as Array.from(new Set(l)). -/
def dedupFirst (l : List String) : List String :=
  dedupFirstAux [] l

/-- handleTablesAdd reducer: append the new names and deduplicate via a
Set, keeping first occurrences in order. -/
def handleTablesAdd (tableNames : List String) (prev : QueryConfig) : QueryConfig :=
  { prev with selectedTables := dedupFirst (prev.selectedTables ++ tableNames) }

/-- One step of the table-adding loop of handleColumnsAdd: push the
column's table unless already present. -/
def addTableStep (ts : List String) (col : ColumnPick) : List String :=
  if col.tableName ∈ ts then ts else ts ++ [col.tableName]

/-- Derived key of a column entry in handleColumnsAdd. -/
def columnKey (col : ColumnPick) : String :=
  col.tableName ++ "." ++ col.columnName

/-- One step of the column-adding loop of handleColumnsAdd: push a new
entry unless one with the same derived id is present. -/
def addColumnStep (cs : List SelectedColumn) (col : ColumnPick) : List SelectedColumn :=
  if cs.any (fun c => c.id = columnKey col) then cs
  else cs ++ [{ id := columnKey col, tableName := col.tableName, columnName := col.columnName,
                aliasName := none, function := none, functionParams := none }]

/-- handleColumnsAdd reducer: add each column's table when missing, then
add each column keyed by its derived id when missing. -/
def handleColumnsAdd (columns : List ColumnPick) (prev : QueryConfig) : QueryConfig :=
  { prev with
    selectedTables := columns.foldl addTableStep prev.selectedTables,
    selectedColumns := columns.foldl addColumnStep prev.selectedColumns }

/-! ## Prefix lemmas about the rendered clause strings -/

theorem data_append (a b : String) : (a ++ b).data = a.data ++ b.data := rfl

theorem strStarts_of_data_eq (s a : String) (r : List Char) (h : s.data = a.data ++ r) :
    strStarts s a = true := by
  unfold strStarts
  rw [h]
  exact List.isPrefixOf_iff_prefix.mpr (List.prefix_append a.data r)

theorem strStarts_append_self (a b : String) : strStarts (a ++ b) a = true :=
  strStarts_of_data_eq (a ++ b) a b.data (data_append a b)

theorem strStarts_false_of_head_ne (s p : String) (c d : Char)
    (hs : s.data.head? = some c) (hp : p.data.head? = some d) (hcd : c ≠ d) :
    strStarts s p = false := by
  unfold strStarts
  cases hsd : s.data with
  | nil => rw [hsd] at hs; exact absurd hs (by simp)
  | cons a as =>
    cases hpd : p.data with
    | nil => rw [hpd] at hp; exact absurd hp (by simp)
    | cons b bs =>
      rw [hsd] at hs
      rw [hpd] at hp
      have ha : a = c := by simpa using hs
      have hb : b = d := by simpa using hp
      subst ha; subst hb
      simp only [List.isPrefixOf, Bool.and_eq_false_imp]
      simp [beq_eq_false_iff_ne, Ne.symm hcd]

theorem head_selectClause (config : QueryConfig) :
    (selectClause config).data.head? = some 'S' := by
  simp only [selectClause]
  split <;> split <;> rfl

theorem strStarts_self (a : String) : strStarts a a = true :=
  List.isPrefixOf_iff_prefix.mpr (List.prefix_refl a.data)

theorem strStarts_append_left_of (a b p : String) (h : strStarts a p = true) :
    strStarts (a ++ b) p = true := by
  unfold strStarts at h ⊢
  rw [data_append]
  exact List.isPrefixOf_iff_prefix.mpr ((List.isPrefixOf_iff_prefix.mp h).trans (List.prefix_append a.data b.data))

theorem strStarts_selectClause (config : QueryConfig) :
    strStarts (selectClause config) "SELECT" = true := by
  simp only [selectClause]
  split
  · apply strStarts_append_left_of
    split
    · exact strStarts_append_self "SELECT" " DISTINCT"
    · exact strStarts_self "SELECT"
  · apply strStarts_append_left_of
    apply strStarts_append_left_of
    split
    · exact strStarts_append_self "SELECT" " DISTINCT"
    · exact strStarts_self "SELECT"

theorem head_whereClause (conditions : List QueryCondition) :
    (whereClause conditions).data.head? = some 'W' := rfl

theorem head_renderJoin (j : QueryJoin) :
    (renderJoin j).data.head? = some 'I' ∨ (renderJoin j).data.head? = some 'L' ∨
      (renderJoin j).data.head? = some 'R' ∨ (renderJoin j).data.head? = some 'O' := by
  obtain ⟨i, ty, lt, lc, rt, rc, ac⟩ := j
  cases ty with
  | INNER => exact Or.inl rfl
  | LEFT => exact Or.inr (Or.inl rfl)
  | RIGHT => exact Or.inr (Or.inr (Or.inl rfl))
  | OUTER => exact Or.inr (Or.inr (Or.inr rfl))

theorem renderJoin_not_starts (j : QueryJoin) (p : String) (d : Char)
    (hp : p.data.head? = some d) (hd : d ≠ 'I' ∧ d ≠ 'L' ∧ d ≠ 'R' ∧ d ≠ 'O') :
    strStarts (renderJoin j) p = false := by
  rcases head_renderJoin j with h | h | h | h
  · exact strStarts_false_of_head_ne _ _ _ _ h hp (fun he => hd.1 he.symm)
  · exact strStarts_false_of_head_ne _ _ _ _ h hp (fun he => hd.2.1 he.symm)
  · exact strStarts_false_of_head_ne _ _ _ _ h hp (fun he => hd.2.2.1 he.symm)
  · exact strStarts_false_of_head_ne _ _ _ _ h hp (fun he => hd.2.2.2 he.symm)

/-! ## Validator rule predicates and error-list decomposition -/

/-- Rule 1 of the validator fails: the normalized text does not start
with select. -/
def ruleStartFails (s : String) : Bool :=
  !(strStarts (strLower (strTrim s)) "select")

/-- Rule 2 of the validator fails: the normalized text does not contain
the substring from. -/
def ruleFromFails (s : String) : Bool :=
  !(strContainsSub (strLower (strTrim s)) "from")

/-- Rule 3 of the validator fails: unbalanced parenthesis counts in the
raw text. -/
def ruleParensFail (s : String) : Bool :=
  !(charCount s '(' == charCount s ')')

/-- Rule 4 of the validator fails: some denylist keyword occurs as a
substring of the normalized text. -/
def ruleKeywordFails (s : String) : Bool :=
  dangerousKeywords.any (fun keyword => strContainsSub (strLower (strTrim s)) keyword)

theorem validateSQL_errors_eq (s : String) :
    (validateSQL s).errors =
      (if ruleStartFails s then ["Query must start with SELECT"] else []) ++
      (if ruleFromFails s then ["Query must include FROM clause"] else []) ++
      (if ruleParensFail s then ["Unbalanced parentheses in query"] else []) ++
      (if ruleKeywordFails s then ["Query contains restricted keywords"] else []) := by
  unfold validateSQL ruleStartFails ruleFromFails ruleParensFail ruleKeywordFails
  by_cases h1 : strStarts (strLower (strTrim s)) "select" = true <;>
  by_cases h2 : strContainsSub (strLower (strTrim s)) "from" = true <;>
  by_cases h3 : charCount s '(' = charCount s ')' <;>
  by_cases h4 : dangerousKeywords.any (fun keyword => strContainsSub (strLower (strTrim s)) keyword) = true <;>
  simp [h1, h2, h3, h4]

theorem validateSQL_isValid_eq (s : String) :
    (validateSQL s).isValid = (validateSQL s).errors.isEmpty := rfl

/-! ## Concrete configurations used by the theorems below -/

/-- Completely empty configuration. -/
def cfgEmpty : QueryConfig :=
  { selectedTables := [], selectedColumns := [], conditions := [], joins := [],
    groupBy := [], orderBy := [], limit := none, distinct := false, logicalOperator := none }

/-- Concrete configuration of the end-to-end scenario: public.users
anchor table, columns users.id and users.email, one equality condition
on public.users.status with value active. -/
def cfgScenario : QueryConfig :=
  { selectedTables := ["public.users"],
    selectedColumns :=
      [{ id := "users.id", tableName := "users", columnName := "id",
         aliasName := none, function := none, functionParams := none },
       { id := "users.email", tableName := "users", columnName := "email",
         aliasName := none, function := none, functionParams := none }],
    conditions :=
      [{ id := "c1", column := "public.users.status", operator := "=",
         value := "active", logicalOperator := none }],
    joins := [], groupBy := [], orderBy := [], limit := none,
    distinct := false, logicalOperator := none }

/-- Configuration with one table and one NOT LIKE condition carrying a
numeric-looking value. -/
def cfgNotLike : QueryConfig :=
  { cfgEmpty with
    selectedTables := ["t"],
    conditions :=
      [{ id := "c1", column := "c", operator := "NOT LIKE",
         value := "123", logicalOperator := none }] }

/-- Configuration with no table and a column whose name embeds the word
from. -/
def cfgFromCol : QueryConfig :=
  { cfgEmpty with
    selectedColumns :=
      [{ id := "t.from_date", tableName := "t", columnName := "from_date",
         aliasName := none, function := none, functionParams := none }] }

/-- Configuration whose selected column references a table that is no
longer in selectedTables (reachable because table removal does not
cascade). -/
def cfgOrphan : QueryConfig :=
  { cfgEmpty with
    selectedColumns :=
      [{ id := "t.c", tableName := "t", columnName := "c",
         aliasName := none, function := none, functionParams := none }] }

/-- Configuration with a duplicated table name. -/
def cfgDupTables : QueryConfig :=
  { cfgEmpty with selectedTables := ["a", "a"] }

/-- Configuration with two tables and no join. -/
def cfgTwoTables : QueryConfig :=
  { cfgEmpty with selectedTables := ["a", "b"] }

/-- Well-formed configuration with one table and one column on it. -/
def cfgOneCol : QueryConfig :=
  { cfgEmpty with
    selectedTables := ["t"],
    selectedColumns :=
      [{ id := "t.c", tableName := "t", columnName := "c",
         aliasName := none, function := none, functionParams := none }] }

/-! ## Lemmas about first-occurrence deduplication -/

theorem dedupFirstAux_eq_nil (seen l : List String) (h : ∀ x ∈ l, x ∈ seen) :
    dedupFirstAux seen l = [] := by
  induction l with
  | nil => rfl
  | cons a rest ih =>
    have ha : a ∈ seen := h a (List.mem_cons_self a rest)
    simp only [dedupFirstAux, if_pos ha]
    exact ih (fun x hx => h x (List.mem_cons_of_mem a hx))

theorem dedupFirstAux_append_eq (l : List String) :
    ∀ (seen ns : List String), l.Nodup → (∀ x ∈ l, x ∉ seen) →
      (∀ x ∈ ns, x ∈ l ∨ x ∈ seen) → dedupFirstAux seen (l ++ ns) = l := by
  induction l with
  | nil =>
    intro seen ns _ _ hns
    simp only [List.nil_append]
    exact dedupFirstAux_eq_nil seen ns (fun x hx => (hns x hx).elim (fun h => absurd h (List.not_mem_nil x)) id)
  | cons a rest ih =>
    intro seen ns hnd hl hns
    have ha : a ∉ seen := hl a (List.mem_cons_self a rest)
    simp only [List.cons_append, dedupFirstAux, if_neg ha]
    have hndr : rest.Nodup := (List.nodup_cons.mp hnd).2
    have hanr : a ∉ rest := (List.nodup_cons.mp hnd).1
    have hl' : ∀ x ∈ rest, x ∉ (a :: seen) := by
      intro x hx
      simp only [List.mem_cons, not_or]
      exact ⟨fun hxa => hanr (hxa ▸ hx), hl x (List.mem_cons_of_mem a hx)⟩
    have hns' : ∀ x ∈ ns, x ∈ rest ∨ x ∈ (a :: seen) := by
      intro x hx
      rcases hns x hx with hxl | hxs
      · rcases List.mem_cons.mp hxl with hxa | hxr
        · exact Or.inr (List.mem_cons.mpr (Or.inl hxa))
        · exact Or.inl hxr
      · exact Or.inr (List.mem_cons_of_mem a hxs)
    simp only [List.append_eq]
    rw [ih (a :: seen) ns hndr hl' hns']

theorem dedupFirst_append_eq_self (l ns : List String) (hnd : l.Nodup)
    (hsub : ∀ x ∈ ns, x ∈ l) : dedupFirst (l ++ ns) = l := by
  unfold dedupFirst
  exact dedupFirstAux_append_eq l [] ns hnd (fun x _ => List.not_mem_nil x)
    (fun x hx => Or.inl (hsub x hx))

theorem mem_dedupFirstAux (x : String) (l : List String) :
    ∀ seen : List String, x ∈ dedupFirstAux seen l ↔ x ∈ l ∧ x ∉ seen := by
  induction l with
  | nil => intro seen; simp [dedupFirstAux]
  | cons a rest ih =>
    intro seen
    by_cases ha : a ∈ seen
    · simp only [dedupFirstAux, if_pos ha, ih seen, List.mem_cons]
      constructor
      · rintro ⟨hx, hns⟩; exact ⟨Or.inr hx, hns⟩
      · rintro ⟨hx | hx, hns⟩
        · exact absurd (hx ▸ ha) hns
        · exact ⟨hx, hns⟩
    · simp only [dedupFirstAux, if_neg ha, List.mem_cons, ih (a :: seen), List.mem_cons, not_or]
      constructor
      · rintro (hxa | ⟨hx, hxa, hxs⟩)
        · exact ⟨Or.inl hxa, hxa ▸ ha⟩
        · exact ⟨Or.inr hx, hxs⟩
      · rintro ⟨hxa | hx, hns⟩
        · exact Or.inl hxa
        · by_cases hxa : x = a
          · exact Or.inl hxa
          · exact Or.inr ⟨hx, hxa, hns⟩

theorem nodup_dedupFirstAux (l : List String) :
    ∀ seen : List String, (dedupFirstAux seen l).Nodup := by
  induction l with
  | nil => intro seen; exact List.nodup_nil
  | cons a rest ih =>
    intro seen
    by_cases ha : a ∈ seen
    · simpa only [dedupFirstAux, if_pos ha] using ih seen
    · simp only [dedupFirstAux, if_neg ha, List.nodup_cons]
      refine ⟨?_, ih (a :: seen)⟩
      intro hmem
      exact ((mem_dedupFirstAux a rest (a :: seen)).mp hmem).2 (List.mem_cons_self a seen)

theorem mem_dedupFirst (x : String) (l : List String) : x ∈ dedupFirst l ↔ x ∈ l := by
  unfold dedupFirst
  rw [mem_dedupFirstAux]
  simp

/-! ## Lemmas about the handleColumnsAdd folds -/

theorem foldl_addTableStep_id (cols : List ColumnPick) :
    ∀ ts : List String, (∀ c ∈ cols, c.tableName ∈ ts) →
      cols.foldl addTableStep ts = ts := by
  induction cols with
  | nil => intro ts _; rfl
  | cons c rest ih =>
    intro ts h
    have hc : c.tableName ∈ ts := h c (List.mem_cons_self c rest)
    simp only [List.foldl_cons, addTableStep, if_pos hc]
    exact ih ts (fun x hx => h x (List.mem_cons_of_mem c hx))

theorem foldl_addColumnStep_id (cols : List ColumnPick) :
    ∀ cs : List SelectedColumn, (∀ c ∈ cols, columnKey c ∈ cs.map SelectedColumn.id) →
      cols.foldl addColumnStep cs = cs := by
  induction cols with
  | nil => intro cs _; rfl
  | cons c rest ih =>
    intro cs h
    have hc : cs.any (fun x => x.id = columnKey c) = true := by
      have := h c (List.mem_cons_self c rest)
      rcases List.mem_map.mp this with ⟨x, hx, hid⟩
      exact List.any_eq_true.mpr ⟨x, hx, by simp [hid]⟩
    simp only [List.foldl_cons, addColumnStep, if_pos hc]
    exact ih cs (fun x hx => h x (List.mem_cons_of_mem c hx))

theorem mem_foldl_addTableStep (cols : List ColumnPick) :
    ∀ (ts : List String) (x : String), x ∈ ts → x ∈ cols.foldl addTableStep ts := by
  induction cols with
  | nil => intro ts x hx; exact hx
  | cons c rest ih =>
    intro ts x hx
    apply ih
    unfold addTableStep
    split
    · exact hx
    · exact List.mem_append_left _ hx

theorem tableName_mem_foldl_addTableStep (cols : List ColumnPick) :
    ∀ ts : List String, ∀ c ∈ cols, c.tableName ∈ cols.foldl addTableStep ts := by
  induction cols with
  | nil => intro ts c hc; exact absurd hc (List.not_mem_nil c)
  | cons c0 rest ih =>
    intro ts c hc
    rcases List.mem_cons.mp hc with hc0 | hcr
    · subst hc0
      simp only [List.foldl_cons]
      apply mem_foldl_addTableStep
      unfold addTableStep
      split
      · assumption
      · exact List.mem_append_right _ (List.mem_cons_self _ _)
    · exact ih (addTableStep ts c0) c hcr

theorem mem_foldl_addColumnStep (cols : List ColumnPick) :
    ∀ (cs : List SelectedColumn) (k : String), k ∈ cs.map SelectedColumn.id →
      k ∈ (cols.foldl addColumnStep cs).map SelectedColumn.id := by
  induction cols with
  | nil => intro cs k hk; exact hk
  | cons c rest ih =>
    intro cs k hk
    apply ih
    unfold addColumnStep
    split
    · exact hk
    · simpa using Or.inl (List.mem_map.mp hk)

theorem columnKey_mem_foldl_addColumnStep (cols : List ColumnPick) :
    ∀ cs : List SelectedColumn, ∀ c ∈ cols,
      columnKey c ∈ (cols.foldl addColumnStep cs).map SelectedColumn.id := by
  induction cols with
  | nil => intro cs c hc; exact absurd hc (List.not_mem_nil c)
  | cons c0 rest ih =>
    intro cs c hc
    rcases List.mem_cons.mp hc with hc0 | hcr
    · subst hc0
      simp only [List.foldl_cons]
      apply mem_foldl_addColumnStep
      unfold addColumnStep
      split
      · rename_i hany
        rcases List.any_eq_true.mp hany with ⟨x, hx, hid⟩
        exact List.mem_map.mpr ⟨x, hx, by simpa using hid⟩
      · simp
    · exact ih (addColumnStep cs c0) c hcr

/-! ## Clause segments of the generated text

The following definitions name, clause kind by clause kind, the
contribution of each clause to the parts list, and the lemma
generateParts_eq_segments shows that the sequential pushes of
generateParts produce exactly these segments in the fixed order. -/

/-- FROM clause segment: one clause naming the first selected table,
absent when no table is selected. -/
def fromPart (config : QueryConfig) : List String :=
  match config.selectedTables with
  | [] => []
  | t0 :: _ => ["FROM " ++ t0]

/-- Implicit CROSS JOIN segment: one clause per selected table after
the first, present only when no explicit join is defined. -/
def crossPart (config : QueryConfig) : List String :=
  match config.selectedTables with
  | [] => []
  | _ :: rest =>
    if !rest.isEmpty && config.joins.isEmpty then rest.map (fun t => "CROSS JOIN " ++ t)
    else []

/-- WHERE clause segment, absent when there is no condition. -/
def wherePart (config : QueryConfig) : List String :=
  if config.conditions.isEmpty then [] else [whereClause config.conditions]

/-- GROUP BY clause segment, absent when the groupBy list is empty. -/
def groupPart (config : QueryConfig) : List String :=
  if config.groupBy.isEmpty then []
  else ["GROUP BY " ++ String.intercalate ", " config.groupBy]

/-- ORDER BY clause segment, absent when every orderBy entry is blank. -/
def orderPart (config : QueryConfig) : List String :=
  if config.orderBy.isEmpty then []
  else
    if (orderListOf config).isEmpty then []
    else ["ORDER BY " ++ String.intercalate ", " (orderListOf config)]

/-- LIMIT clause segment, present only for a positive limit. -/
def limitPart (config : QueryConfig) : List String :=
  match config.limit with
  | some l => if 0 < l then ["LIMIT " ++ toString l] else []
  | none => []

theorem fromStep_eq (config : QueryConfig) (parts : List String) :
    fromStep config parts = parts ++ fromPart config ++ crossPart config := by
  unfold fromStep fromPart crossPart
  cases config.selectedTables with
  | nil => simp
  | cons t0 rest =>
    by_cases h : (!rest.isEmpty && config.joins.isEmpty) = true
    · simp [h, List.append_assoc]
    · simp [h]

theorem whereStep_eq (config : QueryConfig) (parts : List String) :
    whereStep config parts = parts ++ wherePart config := by
  unfold whereStep wherePart
  split <;> simp

theorem groupStep_eq (config : QueryConfig) (parts : List String) :
    groupStep config parts = parts ++ groupPart config := by
  unfold groupStep groupPart
  split <;> simp

theorem orderStep_eq (config : QueryConfig) (parts : List String) :
    orderStep config parts = parts ++ orderPart config := by
  unfold orderStep orderPart
  split <;> [simp; (split <;> simp_all [List.isEmpty_iff])]

theorem limitStep_eq (config : QueryConfig) (parts : List String) :
    limitStep config parts = parts ++ limitPart config := by
  cases h : config.limit with
  | none => simp [limitStep, limitPart, h]
  | some l => by_cases hl : (0 : Int) < l <;> simp [limitStep, limitPart, h, hl]

theorem generateParts_eq_segments (config : QueryConfig) :
    generateParts config =
      [selectClause config] ++ fromPart config ++ crossPart config ++
        config.joins.map renderJoin ++ wherePart config ++ groupPart config ++
        orderPart config ++ limitPart config := by
  unfold generateParts
  rw [fromStep_eq, whereStep_eq, groupStep_eq, orderStep_eq, limitStep_eq]

theorem head_eq_of_strStarts (s pat : String) (c : Char)
    (h : strStarts s pat = true) (hp : pat.data.head? = some c) :
    s.data.head? = some c := by
  unfold strStarts at h
  obtain ⟨r, hr⟩ := List.isPrefixOf_iff_prefix.mp h
  cases hpd : pat.data with
  | nil => rw [hpd] at hp; exact absurd hp (by simp)
  | cons b bs =>
    rw [hpd] at hr hp
    rw [← hr]
    simpa using hp

theorem starts_mem_fromPart (config : QueryConfig) :
    ∀ p ∈ fromPart config, strStarts p "FROM " = true := by
  intro p hp
  unfold fromPart at hp
  cases htab : config.selectedTables with
  | nil => rw [htab] at hp; exact absurd hp (by simp)
  | cons t0 rest =>
    rw [htab] at hp
    simp only [List.mem_singleton] at hp
    subst hp
    exact strStarts_append_self "FROM " t0

theorem starts_mem_crossPart (config : QueryConfig) :
    ∀ p ∈ crossPart config, strStarts p "CROSS JOIN " = true := by
  intro p hp
  have hcp : crossPart config = [] ∨
      ∃ rest : List String, crossPart config = rest.map (fun t => "CROSS JOIN " ++ t) := by
    cases htab : config.selectedTables with
    | nil => exact Or.inl (by simp [crossPart, htab])
    | cons t0 rest =>
      by_cases hc : (!rest.isEmpty && config.joins.isEmpty) = true
      · exact Or.inr ⟨rest, by simp [crossPart, htab, hc]⟩
      · exact Or.inl (by simp [crossPart, htab, hc])
  rcases hcp with h | ⟨rest, h⟩
  · rw [h] at hp; exact absurd hp (by simp)
  · rw [h] at hp
    rcases List.mem_map.mp hp with ⟨t, _, rfl⟩
    exact strStarts_append_self "CROSS JOIN " t

theorem starts_mem_wherePart (config : QueryConfig) :
    ∀ p ∈ wherePart config, strStarts p "WHERE " = true := by
  intro p hp
  unfold wherePart at hp
  split at hp
  · exact absurd hp (by simp)
  · simp only [List.mem_singleton] at hp
    subst hp
    unfold whereClause
    exact strStarts_append_self "WHERE " _

theorem starts_mem_groupPart (config : QueryConfig) :
    ∀ p ∈ groupPart config, strStarts p "GROUP BY " = true := by
  intro p hp
  unfold groupPart at hp
  split at hp
  · exact absurd hp (by simp)
  · simp only [List.mem_singleton] at hp
    subst hp
    exact strStarts_append_self "GROUP BY " _

theorem starts_mem_orderPart (config : QueryConfig) :
    ∀ p ∈ orderPart config, strStarts p "ORDER BY " = true := by
  intro p hp
  unfold orderPart at hp
  split at hp
  · exact absurd hp (by simp)
  · split at hp
    · exact absurd hp (by simp)
    · simp only [List.mem_singleton] at hp
      subst hp
      exact strStarts_append_self "ORDER BY " _

theorem starts_mem_limitPart (config : QueryConfig) :
    ∀ p ∈ limitPart config, strStarts p "LIMIT " = true := by
  intro p hp
  have hlp : limitPart config = [] ∨
      ∃ l : Int, limitPart config = ["LIMIT " ++ toString l] := by
    cases hlim : config.limit with
    | none => exact Or.inl (by simp [limitPart, hlim])
    | some l =>
      by_cases h0 : (0 : Int) < l
      · exact Or.inr ⟨l, by simp [limitPart, hlim, h0]⟩
      · exact Or.inl (by simp [limitPart, hlim, h0])
  rcases hlp with h | ⟨l, h⟩
  · rw [h] at hp; exact absurd hp (by simp)
  · rw [h] at hp
    simp only [List.mem_singleton] at hp
    subst hp
    exact strStarts_append_self "LIMIT " _

theorem fromPart_eq_nil_iff (config : QueryConfig) :
    fromPart config = [] ↔ config.selectedTables = [] := by
  unfold fromPart
  cases config.selectedTables <;> simp

theorem wherePart_eq_nil_iff (config : QueryConfig) :
    wherePart config = [] ↔ config.conditions = [] := by
  unfold wherePart
  split <;> simp_all [List.isEmpty_iff]

theorem groupPart_eq_nil_iff (config : QueryConfig) :
    groupPart config = [] ↔ config.groupBy = [] := by
  unfold groupPart
  split <;> simp_all [List.isEmpty_iff]

theorem orderPart_eq_nil_iff (config : QueryConfig) :
    orderPart config = [] ↔ orderListOf config = [] := by
  by_cases h : config.orderBy.isEmpty = true
  · have hnil : config.orderBy = [] := List.isEmpty_iff.mp h
    simp [orderPart, h, orderListOf, hnil]
  · by_cases h2 : (orderListOf config).isEmpty = true
    · simp [orderPart, h, h2, List.isEmpty_iff.mp h2]
    · simp only [orderPart, h, h2, if_neg, if_false, Bool.false_eq_true]
      simp only [List.isEmpty_iff] at h2
      simp [h2]

theorem limitPart_eq_nil_iff (config : QueryConfig) :
    limitPart config = [] ↔ ∀ l, config.limit = some l → l ≤ 0 := by
  cases h : config.limit with
  | none => simp [limitPart, h]
  | some l =>
    by_cases hl : (0 : Int) < l
    · simp only [limitPart, h, hl, if_true]
      simp only [List.cons_ne_nil, false_iff]
      intro hc
      exact absurd (hc l rfl) (by omega)
    · simp only [limitPart, h, hl, if_false]
      simp only [true_iff]
      intro l2 hl2
      cases hl2
      omega

/-! ## Claim theorems -/

/-- C1: the claim states that both the execute and the export entry
points reject every statement whose trimmed lower-cased text does not
begin with select. The export gate does, but the execute gate only
screens six destructive prefixes: the statement truncate table users
does not begin with select, yet the execute gate does not reject it
(the text is forwarded to the executor), contradicting the claim and
the route's own only-SELECT error message. -/
theorem C1_execute_gate_misses_truncate :
    strStarts (strLower (strTrim "truncate table users")) "select" = false ∧
    executeGateRejects "truncate table users" = false ∧
    exportGateRejects "truncate table users" = true := by
  decide

/-- C2: the claim (and the spec) require word-boundary matching for the
denylist screen, so that a query whose only occurrence of a denylist
word is embedded in a longer identifier such as created_at raises no
restricted-keyword error; the source instead tests raw substring
containment, and validateSQL flags exactly that query. -/
theorem C2_embedded_keyword_flagged :
    validateSQL "select created_at from events" =
      { isValid := false, errors := ["Query contains restricted keywords"] } := by
  decide

/-- C3 counterexample: in the end-to-end scenario configuration the
WHERE clause rendered by generateSQL is WHERE public.users.status =
'active', with the condition column rendered verbatim, not WHERE status
= 'active' as the claim states. -/
theorem C3_where_clause_counterexample :
    generateParts cfgScenario =
      ["SELECT\n  users.id,\n  users.email", "FROM public.users",
       "WHERE public.users.status = 'active'"] ∧
    ("WHERE public.users.status = 'active'" : String) ≠ "WHERE status = 'active'" := by
  decide

/-- C3 amended: the scenario configuration renders a SELECT clause
listing users.id then users.email, FROM public.users, and a WHERE
clause whose content is public.users.status = 'active' (the condition
column verbatim followed by the operator and the quoted value). -/
theorem C3_scenario_rendered_text :
    generateSQL cfgScenario =
      "SELECT\n  users.id,\n  users.email\nFROM public.users\nWHERE public.users.status = 'active'" := by
  decide

/-- C4 counterexample: NOT LIKE is not part of the quote-forcing
pattern branch; under the default rule a NOT LIKE condition whose value
parses as a number renders the value unquoted, where the claim requires
single-quoting for the whole LIKE family. -/
theorem C4_not_like_counterexample :
    generateSQL cfgNotLike = "SELECT *\nFROM t\nWHERE c NOT LIKE 123" ∧
    condValue { id := "c1", column := "c", operator := "NOT LIKE",
                value := "123", logicalOperator := none } = "123" ∧
    strContainsSub (generateSQL cfgNotLike) "'123'" = false := by
  decide

theorem condValue_default_rule (c : QueryCondition)
    (h1 : ¬(c.operator = "IN" ∨ c.operator = "NOT IN"))
    (h2 : ¬(c.operator = "LIKE" ∨ c.operator = "ILIKE"))
    (h3 : ¬(c.operator = "IS NULL" ∨ c.operator = "IS NOT NULL")) :
    condValue c =
      if jsNumberIsNaN c.value && !(strStarts c.value "'") then "'" ++ c.value ++ "'"
      else c.value := by
  unfold condValue
  rw [if_neg h1, if_neg h2, if_neg h3]

/-- C4 amended: value formatting by operator class, as the source
implements it: membership operators parenthesize unless the value
already starts with an opening parenthesis; exactly LIKE and ILIKE
quote unless the value already starts with a quote; nullability
operators emit no value; every operator outside those three classes,
including NOT LIKE and NOT ILIKE, quotes the value unless it coerces to
a number or already starts with a quote. -/
theorem C4_condValue_operator_classes (c : QueryCondition) :
    ((c.operator = "IN" ∨ c.operator = "NOT IN") →
      condValue c = if strStarts c.value "(" then c.value else "(" ++ c.value ++ ")") ∧
    ((c.operator = "LIKE" ∨ c.operator = "ILIKE") →
      condValue c = if strStarts c.value "'" then c.value else "'" ++ c.value ++ "'") ∧
    ((c.operator = "IS NULL" ∨ c.operator = "IS NOT NULL") → condValue c = "") ∧
    (c.operator ∉ (["IN", "NOT IN", "LIKE", "ILIKE", "IS NULL", "IS NOT NULL"] : List String) →
      condValue c =
        if jsNumberIsNaN c.value && !(strStarts c.value "'") then "'" ++ c.value ++ "'"
        else c.value) ∧
    ((c.operator = "NOT LIKE" ∨ c.operator = "NOT ILIKE") →
      condValue c =
        if jsNumberIsNaN c.value && !(strStarts c.value "'") then "'" ++ c.value ++ "'"
        else c.value) := by
  refine ⟨?_, ?_, ?_, ?_, ?_⟩
  · intro h
    unfold condValue
    rw [if_pos h]
  · intro h
    have h1 : ¬(c.operator = "IN" ∨ c.operator = "NOT IN") := by
      rcases h with h | h <;> rw [h] <;> decide
    unfold condValue
    rw [if_neg h1, if_pos h]
  · intro h
    have h1 : ¬(c.operator = "IN" ∨ c.operator = "NOT IN") := by
      rcases h with h | h <;> rw [h] <;> decide
    have h2 : ¬(c.operator = "LIKE" ∨ c.operator = "ILIKE") := by
      rcases h with h | h <;> rw [h] <;> decide
    unfold condValue
    rw [if_neg h1, if_neg h2, if_pos h]
  · intro h
    refine condValue_default_rule c ?_ ?_ ?_
    · rintro (h2 | h2) <;> exact h (by rw [h2]; decide)
    · rintro (h2 | h2) <;> exact h (by rw [h2]; decide)
    · rintro (h2 | h2) <;> exact h (by rw [h2]; decide)
  · intro h
    refine condValue_default_rule c ?_ ?_ ?_
    · rcases h with h | h <;> rw [h] <;> decide
    · rcases h with h | h <;> rw [h] <;> decide
    · rcases h with h | h <;> rw [h] <;> decide

/-- Witness for C4: one concrete application of each operator class. -/
theorem C4_condValue_operator_classes_witness :
    condValue { id := "w1", column := "a", operator := "IN", value := "1, 2",
                logicalOperator := none } = "(1, 2)" ∧
    condValue { id := "w2", column := "a", operator := "LIKE", value := "a%",
                logicalOperator := none } = "'a%'" ∧
    condValue { id := "w3", column := "a", operator := "IS NULL", value := "x",
                logicalOperator := none } = "" ∧
    condValue { id := "w4", column := "a", operator := "=", value := "active",
                logicalOperator := none } = "'active'" ∧
    condValue { id := "w5", column := "a", operator := "NOT LIKE", value := "123",
                logicalOperator := none } = "123" := by
  refine ⟨?_, ?_, ?_, ?_, ?_⟩
  · have h := (C4_condValue_operator_classes
      { id := "w1", column := "a", operator := "IN", value := "1, 2",
        logicalOperator := none }).1 (Or.inl rfl)
    rw [h]; decide
  · have h := (C4_condValue_operator_classes
      { id := "w2", column := "a", operator := "LIKE", value := "a%",
        logicalOperator := none }).2.1 (Or.inl rfl)
    rw [h]; decide
  · exact (C4_condValue_operator_classes
      { id := "w3", column := "a", operator := "IS NULL", value := "x",
        logicalOperator := none }).2.2.1 (Or.inl rfl)
  · have h := (C4_condValue_operator_classes
      { id := "w4", column := "a", operator := "=", value := "active",
        logicalOperator := none }).2.2.2.1 (by decide)
    rw [h]; decide
  · have h := (C4_condValue_operator_classes
      { id := "w5", column := "a", operator := "NOT LIKE", value := "123",
        logicalOperator := none }).2.2.2.2 (Or.inl rfl)
    rw [h]; decide

/-- C5: with more than one selected table and no explicit join, the
parts list is the SELECT clause, the FROM clause for the first table,
then exactly one CROSS JOIN clause per remaining table in selection
order, followed only by clauses that are not CROSS JOIN clauses; the
number of CROSS JOIN clauses equals the number of remaining tables. -/
theorem C5_cross_join_fallback (cfg : QueryConfig) (t0 t1 : String) (ts : List String)
    (hj : cfg.joins = []) (ht : cfg.selectedTables = t0 :: t1 :: ts) :
    generateParts cfg =
        [selectClause cfg, "FROM " ++ t0] ++
          (t1 :: ts).map (fun t => "CROSS JOIN " ++ t) ++
          (wherePart cfg ++ groupPart cfg ++ orderPart cfg ++ limitPart cfg) ∧
    (∀ p ∈ wherePart cfg ++ groupPart cfg ++ orderPart cfg ++ limitPart cfg,
        strStarts p "CROSS JOIN " = false) ∧
    (generateParts cfg).countP (fun p => strStarts p "CROSS JOIN ") = (t1 :: ts).length := by
  have hfrom : fromPart cfg = ["FROM " ++ t0] := by simp [fromPart, ht]
  have hcross : crossPart cfg = (t1 :: ts).map (fun t => "CROSS JOIN " ++ t) := by
    simp [crossPart, ht, hj]
  have heq : generateParts cfg =
      [selectClause cfg, "FROM " ++ t0] ++
        (t1 :: ts).map (fun t => "CROSS JOIN " ++ t) ++
        (wherePart cfg ++ groupPart cfg ++ orderPart cfg ++ limitPart cfg) := by
    rw [generateParts_eq_segments, hfrom, hcross, hj]
    simp [List.append_assoc]
  have htail : ∀ p ∈ wherePart cfg ++ groupPart cfg ++ orderPart cfg ++ limitPart cfg,
      strStarts p "CROSS JOIN " = false := by
    intro p hp
    rcases List.mem_append.mp hp with hp | hp
    rcases List.mem_append.mp hp with hp | hp
    rcases List.mem_append.mp hp with hp | hp
    · exact strStarts_false_of_head_ne p "CROSS JOIN " 'W' 'C'
        (head_eq_of_strStarts p "WHERE " 'W' (starts_mem_wherePart cfg p hp) rfl) rfl (by decide)
    · exact strStarts_false_of_head_ne p "CROSS JOIN " 'G' 'C'
        (head_eq_of_strStarts p "GROUP BY " 'G' (starts_mem_groupPart cfg p hp) rfl) rfl (by decide)
    · exact strStarts_false_of_head_ne p "CROSS JOIN " 'O' 'C'
        (head_eq_of_strStarts p "ORDER BY " 'O' (starts_mem_orderPart cfg p hp) rfl) rfl (by decide)
    · exact strStarts_false_of_head_ne p "CROSS JOIN " 'L' 'C'
        (head_eq_of_strStarts p "LIMIT " 'L' (starts_mem_limitPart cfg p hp) rfl) rfl (by decide)
  refine ⟨heq, htail, ?_⟩
  rw [heq]
  rw [List.countP_append, List.countP_append]
  have hsel : (List.countP (fun p => strStarts p "CROSS JOIN ")
      [selectClause cfg, "FROM " ++ t0]) = 0 := by
    have h1 : strStarts (selectClause cfg) "CROSS JOIN " = false :=
      strStarts_false_of_head_ne _ _ 'S' 'C' (head_selectClause cfg) rfl (by decide)
    have h2 : strStarts ("FROM " ++ t0) "CROSS JOIN " = false :=
      strStarts_false_of_head_ne _ _ 'F' 'C' rfl rfl (by decide)
    simp [List.countP_cons, h1, h2]
  have hmid : (List.countP (fun p => strStarts p "CROSS JOIN ")
      ((t1 :: ts).map (fun t => "CROSS JOIN " ++ t))) = (t1 :: ts).length := by
    have hall : List.countP (fun p => strStarts p "CROSS JOIN ")
        ((t1 :: ts).map (fun t => "CROSS JOIN " ++ t)) =
        ((t1 :: ts).map (fun t => "CROSS JOIN " ++ t)).length :=
      List.countP_eq_length.mpr (fun a ha => by
        rcases List.mem_map.mp ha with ⟨t, _, rfl⟩
        exact strStarts_append_self "CROSS JOIN " t)
    rw [hall, List.length_map]
  have hend : (List.countP (fun p => strStarts p "CROSS JOIN ")
      (wherePart cfg ++ groupPart cfg ++ orderPart cfg ++ limitPart cfg)) = 0 := by
    refine List.countP_eq_zero.mpr (fun a ha => ?_)
    simp [htail a ha]
  rw [hsel, hmid, hend]
  omega

/-- Witness for C5: two tables and zero joins render exactly one CROSS
JOIN clause, naming the second table. -/
theorem C5_cross_join_fallback_witness :
    (generateParts cfgTwoTables).countP (fun p => strStarts p "CROSS JOIN ") = 1 ∧
    generateParts cfgTwoTables = ["SELECT *", "FROM a", "CROSS JOIN b"] := by
  have h := C5_cross_join_fallback cfgTwoTables "a" "b" [] rfl rfl
  exact ⟨h.2.2, by decide⟩

/-- C6: the generated text is the newline join of the clause segments
in the fixed order SELECT, FROM, CROSS JOIN, explicit JOINs, WHERE,
GROUP BY, ORDER BY, LIMIT, where each segment carries its clause
marker as a prefix and is empty exactly when its inputs are empty. -/
theorem C6_clause_order (cfg : QueryConfig) :
    generateSQL cfg = String.intercalate "\n"
        ([selectClause cfg] ++ fromPart cfg ++ crossPart cfg ++ cfg.joins.map renderJoin ++
          wherePart cfg ++ groupPart cfg ++ orderPart cfg ++ limitPart cfg) ∧
    strStarts (selectClause cfg) "SELECT" = true ∧
    (∀ p ∈ fromPart cfg, strStarts p "FROM " = true) ∧
    (fromPart cfg = [] ↔ cfg.selectedTables = []) ∧
    (∀ p ∈ crossPart cfg, strStarts p "CROSS JOIN " = true) ∧
    (∀ p ∈ wherePart cfg, strStarts p "WHERE " = true) ∧
    (wherePart cfg = [] ↔ cfg.conditions = []) ∧
    (∀ p ∈ groupPart cfg, strStarts p "GROUP BY " = true) ∧
    (groupPart cfg = [] ↔ cfg.groupBy = []) ∧
    (∀ p ∈ orderPart cfg, strStarts p "ORDER BY " = true) ∧
    (orderPart cfg = [] ↔ orderListOf cfg = []) ∧
    (∀ p ∈ limitPart cfg, strStarts p "LIMIT " = true) ∧
    (limitPart cfg = [] ↔ ∀ l, cfg.limit = some l → l ≤ 0) := by
  refine ⟨?_, strStarts_selectClause cfg, starts_mem_fromPart cfg, fromPart_eq_nil_iff cfg,
    starts_mem_crossPart cfg, starts_mem_wherePart cfg, wherePart_eq_nil_iff cfg,
    starts_mem_groupPart cfg, groupPart_eq_nil_iff cfg, starts_mem_orderPart cfg,
    orderPart_eq_nil_iff cfg, starts_mem_limitPart cfg, limitPart_eq_nil_iff cfg⟩
  unfold generateSQL
  rw [generateParts_eq_segments]

/-- C7: validateSQL evaluates all four rules without short-circuiting,
accumulating one error message per failing rule in rule order, and
isValid holds exactly when the accumulated error list is empty. -/
theorem C7_validateSQL_accumulates (s : String) :
    ((validateSQL s).isValid = true ↔ (validateSQL s).errors = []) ∧
    (validateSQL s).errors =
      (if ruleStartFails s then ["Query must start with SELECT"] else []) ++
      (if ruleFromFails s then ["Query must include FROM clause"] else []) ++
      (if ruleParensFail s then ["Unbalanced parentheses in query"] else []) ++
      (if ruleKeywordFails s then ["Query contains restricted keywords"] else []) := by
  constructor
  · rw [validateSQL_isValid_eq]
    exact List.isEmpty_iff
  · exact validateSQL_errors_eq s

/-- C8 counterexample: on a configuration with a duplicated table name,
re-adding the present name changes the configuration, and on a
configuration whose selected column references a removed table,
re-adding the present column key re-adds the table: neither add is a
no-op, so the claim fails for some configurations. -/
theorem C8_add_not_idempotent_counterexample :
    ("a" ∈ cfgDupTables.selectedTables ∧
      handleTablesAdd ["a"] cfgDupTables ≠ cfgDupTables) ∧
    (columnKey { tableName := "t", columnName := "c" } ∈
        cfgOrphan.selectedColumns.map SelectedColumn.id ∧
      handleColumnsAdd [{ tableName := "t", columnName := "c" }] cfgOrphan ≠ cfgOrphan) := by
  decide

/-- C8 amended: for a key-consistent configuration (duplicate-free
selectedTables containing the table of every selected column), adding
only already-present table names or column keys is a no-op; and for any
configuration and any batch whatsoever, repeating the same add a second
time changes nothing. -/
theorem C8_add_idempotent_by_key (cfg : QueryConfig) (names : List String)
    (cols : List ColumnPick)
    (hnd : cfg.selectedTables.Nodup)
    (hnames : ∀ n ∈ names, n ∈ cfg.selectedTables)
    (hcols : ∀ c ∈ cols, columnKey c ∈ cfg.selectedColumns.map SelectedColumn.id ∧
        c.tableName ∈ cfg.selectedTables) :
    handleTablesAdd names cfg = cfg ∧
    handleColumnsAdd cols cfg = cfg ∧
    (∀ (cfg2 : QueryConfig) (names2 : List String),
      handleTablesAdd names2 (handleTablesAdd names2 cfg2) = handleTablesAdd names2 cfg2) ∧
    (∀ (cfg2 : QueryConfig) (cols2 : List ColumnPick),
      handleColumnsAdd cols2 (handleColumnsAdd cols2 cfg2) = handleColumnsAdd cols2 cfg2) := by
  refine ⟨?_, ?_, ?_, ?_⟩
  · unfold handleTablesAdd
    rw [dedupFirst_append_eq_self cfg.selectedTables names hnd hnames]
  · unfold handleColumnsAdd
    rw [foldl_addTableStep_id cols cfg.selectedTables (fun c hc => (hcols c hc).2),
      foldl_addColumnStep_id cols cfg.selectedColumns (fun c hc => (hcols c hc).1)]
  · intro cfg2 names2
    unfold handleTablesAdd
    rw [dedupFirst_append_eq_self (dedupFirst (cfg2.selectedTables ++ names2)) names2
      (nodup_dedupFirstAux (cfg2.selectedTables ++ names2) [])
      (fun n hn => (mem_dedupFirst n (cfg2.selectedTables ++ names2)).mpr
        (List.mem_append_right cfg2.selectedTables hn))]
  · intro cfg2 cols2
    unfold handleColumnsAdd
    rw [foldl_addTableStep_id cols2 (cols2.foldl addTableStep cfg2.selectedTables)
        (fun c hc => tableName_mem_foldl_addTableStep cols2 cfg2.selectedTables c hc),
      foldl_addColumnStep_id cols2 (cols2.foldl addColumnStep cfg2.selectedColumns)
        (fun c hc => columnKey_mem_foldl_addColumnStep cols2 cfg2.selectedColumns c hc)]

/-- Witness for C8: re-adding the present table and column of a
key-consistent configuration is a no-op, and repeating an add is
idempotent even on a non-key-consistent configuration (duplicated
table names) with a fresh batch. -/
theorem C8_add_idempotent_by_key_witness :
    handleTablesAdd ["t"] cfgOneCol = cfgOneCol ∧
    handleColumnsAdd [{ tableName := "t", columnName := "c" }] cfgOneCol = cfgOneCol ∧
    handleTablesAdd ["b"] (handleTablesAdd ["b"] cfgDupTables) =
      handleTablesAdd ["b"] cfgDupTables ∧
    handleColumnsAdd [{ tableName := "u", columnName := "d" }]
        (handleColumnsAdd [{ tableName := "u", columnName := "d" }] cfgDupTables) =
      handleColumnsAdd [{ tableName := "u", columnName := "d" }] cfgDupTables := by
  have h := C8_add_idempotent_by_key cfgOneCol ["t"] [{ tableName := "t", columnName := "c" }]
    (by decide) (by decide) (by decide)
  exact ⟨h.1, h.2.1, h.2.2.1 cfgDupTables ["b"],
    h.2.2.2 cfgDupTables [{ tableName := "u", columnName := "d" }]⟩

/-- C9: generateSQL is a pure function of the configuration value: two
invocations on equal configurations return identical text. In this
embedding the generator is deterministic by construction, matching the
source, which iterates only over arrays and uses no unordered key
iteration. -/
theorem C9_generateSQL_deterministic (c1 c2 : QueryConfig) (h : c1 = c2) :
    generateSQL c1 = generateSQL c2 := by
  rw [h]

/-- Witness for C9. -/
theorem C9_generateSQL_deterministic_witness :
    generateSQL cfgScenario = generateSQL cfgScenario :=
  C9_generateSQL_deterministic cfgScenario cfgScenario rfl

/-- C10 counterexample: with no table selected but a column named
from_date, the generated text has no FROM clause yet contains the
substring from, so validateSQL does not record the FROM-rule error and
even accepts the text, against the claim that such output is always
rejected by the FROM rule. -/
theorem C10_from_rule_counterexample :
    cfgFromCol.selectedTables = [] ∧
    generateSQL cfgFromCol = "SELECT\n  t.from_date" ∧
    "Query must include FROM clause" ∉ (validateSQL (generateSQL cfgFromCol)).errors ∧
    (validateSQL (generateSQL cfgFromCol)).isValid = true := by
  decide

/-- C10 amended: with no selected table the generator still totally
renders a clause list containing no FROM clause; and whenever the
normalized output additionally lacks the substring from (for example
when no identifier embeds it), validateSQL records the FROM-rule
error. -/
theorem C10_no_from_clause_when_no_table (cfg : QueryConfig)
    (h : cfg.selectedTables = []) :
    (∀ p ∈ generateParts cfg, strStarts p "FROM " = false) ∧
    (strContainsSub (strLower (strTrim (generateSQL cfg))) "from" = false →
      "Query must include FROM clause" ∈ (validateSQL (generateSQL cfg)).errors) := by
  constructor
  · intro p hp
    rw [generateParts_eq_segments] at hp
    have hfrom : fromPart cfg = [] := (fromPart_eq_nil_iff cfg).mpr h
    have hcross : crossPart cfg = [] := by simp [crossPart, h]
    rw [hfrom, hcross] at hp
    simp only [List.append_nil] at hp
    rcases List.mem_append.mp hp with hp | hp
    rcases List.mem_append.mp hp with hp | hp
    rcases List.mem_append.mp hp with hp | hp
    rcases List.mem_append.mp hp with hp | hp
    rcases List.mem_append.mp hp with hp | hp
    · have hps : p = selectClause cfg := by simpa using hp
      subst hps
      exact strStarts_false_of_head_ne _ _ 'S' 'F' (head_selectClause cfg) rfl (by decide)
    · rcases List.mem_map.mp hp with ⟨j, _, rfl⟩
      exact renderJoin_not_starts j "FROM " 'F' rfl (by decide)
    · exact strStarts_false_of_head_ne p "FROM " 'W' 'F'
        (head_eq_of_strStarts p "WHERE " 'W' (starts_mem_wherePart cfg p hp) rfl) rfl (by decide)
    · exact strStarts_false_of_head_ne p "FROM " 'G' 'F'
        (head_eq_of_strStarts p "GROUP BY " 'G' (starts_mem_groupPart cfg p hp) rfl) rfl (by decide)
    · exact strStarts_false_of_head_ne p "FROM " 'O' 'F'
        (head_eq_of_strStarts p "ORDER BY " 'O' (starts_mem_orderPart cfg p hp) rfl) rfl (by decide)
    · exact strStarts_false_of_head_ne p "FROM " 'L' 'F'
        (head_eq_of_strStarts p "LIMIT " 'L' (starts_mem_limitPart cfg p hp) rfl) rfl (by decide)
  · intro hno
    rw [validateSQL_errors_eq (generateSQL cfg)]
    have hf : ruleFromFails (generateSQL cfg) = true := by
      simp [ruleFromFails, hno]
    simp [hf]

/-- Witness for C10: the empty configuration renders SELECT *, which
contains no from substring, and validateSQL records the FROM-rule
error on it. -/
theorem C10_no_from_clause_when_no_table_witness :
    "Query must include FROM clause" ∈ (validateSQL (generateSQL cfgEmpty)).errors :=
  (C10_no_from_clause_when_no_table cfgEmpty rfl).2 (by decide)

end QueryBuilder

namespace QueryBuilderChecks

open QueryBuilder

example : strTrim "  ab c  " = "ab c" := by decide
example : strLower "SeLeCt X" = "select x" := by decide
example : strStarts "select *" "select" = true := by decide
example : strContainsSub "a created_at b" "create" = true := by decide
example : strContainsSub "abc" "from" = false := by decide
example : jsNumberIsNaN "active" = true := by decide
example : jsNumberIsNaN "123" = false := by decide
example : jsNumberIsNaN "" = false := by decide
example : jsNumberIsNaN "12.5e3" = false := by decide
example : jsNumberIsNaN "0x1A" = false := by decide
example : jsNumberIsNaN "12abc" = true := by decide
example : charCount "((a)" '(' = 2 := by decide

example :
    generateSQL cfgScenario =
      "SELECT\n  users.id,\n  users.email\nFROM public.users\nWHERE public.users.status = 'active'" := by
  decide

example : validateSQL "SELECT id, name FROM users WHERE status = 'active'" =
    { isValid := true, errors := [] } := by decide

example : validateSQL "DELETE FROM users" =
    { isValid := false,
      errors := ["Query must start with SELECT", "Query contains restricted keywords"] } := by
  decide

example : validateSQL "SELECT * FROM t WHERE (a=1" =
    { isValid := false, errors := ["Unbalanced parentheses in query"] } := by decide

example : executeGateRejects "  DROP table x" = true := by decide
example : executeGateRejects "truncate table users" = false := by decide
example : exportGateRejects "truncate table users" = true := by decide

example :
    handleTablesAdd ["a"] { cfgScenario with selectedTables := ["a", "a"] } =
      { cfgScenario with selectedTables := ["a"] } := by decide

end QueryBuilderChecks
